import Mathlib

set_option autoImplicit false

/-!
# Formal model of `adenotifier/notifier.py`

A shallow embedding of the manifest-assembly and notification logic of the
`ade-notifier` repository (`src/adenotifier/notifier.py`).  Pure Python
functions become Lean functions; the remote ADE Notify API together with the
`Manifest` collaborator class (imported from `adenotifier.manifest`, whose
source is not part of this development and is therefore modelled from the
specification's collaborator contract) is represented by an explicit
environment `Env` supplying the remote answers, and every remote operation
performed is recorded in an event trace.  Python `KeyError`s on missing
configuration keys and exceptions escaping a function are modelled with
`Except`.  Line numbers in the comments refer to `notifier.py`.
-/

namespace AdeNotifier

/-- Manifest lifecycle states.  The notifier only ever produces `OPEN`
(on create/fetch of an open manifest) and `NOTIFIED` (after `notify()`);
the remote states `FAILED`/`ARCHIVED` never arise in the modelled paths. -/
inductive MState where
  | stOpen
  | stNotified
  deriving DecidableEq, Repr

/-- A manifest summary as returned by the remote search in
`search_manifests`: its id together with the `created` timestamp the Python
code sorts by (timestamps are totally ordered; modelled as `Nat`). -/
structure ManifestSummary where
  id : String
  created : Nat
  deriving DecidableEq, Repr

/-- One file reference inside a manifest: the (post-rewrite) path and the
optional entry-level batch number. -/
structure Entry where
  sourceFile : String
  batch : Option Int
  deriving DecidableEq, Repr

/-- The comparison on summaries induced by
`sorted(manifests, key=lambda i: i["created"])` (line 81). -/
def created_le (a b : ManifestSummary) : Prop := a.created ≤ b.created

instance : DecidableRel created_le := fun a b => Nat.decLe a.created b.created

instance : IsTotal ManifestSummary created_le :=
  ⟨fun a b => Nat.le_total a.created b.created⟩

instance : IsTrans ManifestSummary created_le :=
  ⟨fun _ _ _ hab hbc => Nat.le_trans hab hbc⟩

/-- Lines 77–83 of `search_manifests`: order the remote search result
ascending by creation time.  Python `sorted` is a stable ascending sort;
since a stable sort's output is unique, it is modelled by the stable
`List.insertionSort` (for the empty list Python skips the sort, with the
same result). -/
def search_sort (ms : List ManifestSummary) : List ManifestSummary :=
  ms.insertionSort created_le

/-- The failures `parse_batch` can raise, named `BatchParseError` in the
specification's taxonomy: `re.search` returned `None` so `.groups()` raises
`AttributeError`; a captured group is `None` so `batch += group` raises
`TypeError`; the concatenation is not a valid integer so `int(batch)`
raises `ValueError`. -/
inductive BatchParseError where
  | noMatch
  | groupNone
  | invalidInt (s : String)
  deriving DecidableEq, Repr

/-- Base-10 value of a list of ASCII digits, most significant first. -/
def digitsToNatAux (acc : Nat) : List Char → Nat
  | [] => acc
  | c :: cs => digitsToNatAux (acc * 10 + (c.toNat - 48)) cs

/-- Model of Python `int(s)` restricted to the shapes the notifier can
produce: an optional sign followed by one or more ASCII digits parses in
base 10; everything else raises `ValueError`, modelled as `none`.
(Pythonic extras such as surrounding whitespace or underscores between
digits are not modelled; no claim depends on them.) -/
def str_to_int (s : String) : Option Int :=
  match s.toList with
  | [] => none
  | c :: cs =>
    if c = '-' then
      if cs ≠ [] ∧ cs.all Char.isDigit then some (-(digitsToNatAux 0 cs : Int))
      else none
    else if c = '+' then
      if cs ≠ [] ∧ cs.all Char.isDigit then some ((digitsToNatAux 0 cs : Int))
      else none
    else
      if (c :: cs).all Char.isDigit then some ((digitsToNatAux 0 (c :: cs) : Int))
      else none

/-- Lines 99–103: `batch = ""` then `for group in result.groups():
batch += group` — concatenate the captured groups left to right; a group
that did not participate in the match is Python `None`, and `str += None`
raises `TypeError`, modelled as `none`. -/
def concatGroups : List (Option String) → Option String
  | [] => some ""
  | none :: _ => none
  | some g :: gs => (concatGroups gs).map (fun t => g ++ t)

/-- The interface of Python `re.search`: given the regular expression and
the subject string, return `none` when there is no match, otherwise the
captured groups (in group order) of the leftmost match, where an individual
group may itself be `none`. -/
abbrev ReSearch := String → String → Option (List (Option String))

/-- `parse_batch` (lines 86–105): apply the pattern once via `re.search`,
concatenate the captured groups left to right, parse the concatenation in
base 10.  Any of the three failure shapes escapes as an exception,
modelled as `Except.error`. -/
def parse_batch (re_search : ReSearch) (file_url : String) (regexp : String) :
    Except BatchParseError Int :=
  match re_search regexp file_url with
  | none => .error .noMatch
  | some groups =>
    match concatGroups groups with
    | none => .error .groupNone
    | some batch =>
      match str_to_int batch with
      | none => .error (.invalidInt batch)
      | some n => .ok n

/-- Modelled from the spec: the behaviour of Python `re.search` for the
specification's example pattern `(\d{4})(\d{2})(\d{2})` at one position —
the pattern matches here iff the next eight characters are ASCII digits,
captured as groups of four, two and two. -/
def ymdAt (l : List Char) : Option (List (Option String)) :=
  let w := l.take 8
  if w.length = 8 ∧ w.all Char.isDigit then
    some [some (String.mk (w.take 4)), some (String.mk ((w.drop 4).take 2)),
      some (String.mk (w.drop 6))]
  else
    none

/-- Modelled from the spec: leftmost-match scan of `re.search` for the
example pattern — try every position left to right and return the first
match. -/
def ymdSearchAux : List Char → Option (List (Option String))
  | [] => none
  | c :: cs =>
    match ymdAt (c :: cs) with
    | some gs => some gs
    | none => ymdSearchAux cs

/-- Modelled from the spec: a `ReSearch` oracle implementing Python
`re.search` for exactly the example pattern `(\d{4})(\d{2})(\d{2})` of §8
of the specification (any other pattern is reported as not matching). -/
def re_search_ymd : ReSearch := fun regexp file_url =>
  if regexp = "(\\d{4})(\\d{2})(\\d{2})" then ymdSearchAux file_url.toList
  else none

/-- The per-source configuration dictionary `source["attributes"]`: every
key the notifier reads, `none` when the key is absent (reading an absent
mandatory key raises `KeyError`). -/
structure SourceAttributes where
  ade_source_system : Option String := none
  ade_source_entity : Option String := none
  single_file_manifest : Option Bool := none
  max_files_in_manifest : Option Nat := none
  path_replace : Option String := none
  path_replace_with : Option String := none
  batch_from_file_path_regex : Option String := none
  deriving DecidableEq, Repr

/-- `source["manifest_parameters"]`: the mandatory `format` plus the
optional shape parameters copied verbatim onto a new manifest
(lines 161, 167–176). -/
structure ManifestParameters where
  format : Option String := none
  columns : Option (List String) := none
  compression : Option String := none
  delim : Option String := none
  fullscanned : Option Bool := none
  skiph : Option Nat := none
  deriving DecidableEq, Repr

/-- A data source configuration object. -/
structure Source where
  attributes : SourceAttributes
  manifest_parameters : ManifestParameters
  deriving DecidableEq, Repr

/-- Modelled from the spec: the `Manifest` collaborator object of
`adenotifier.manifest` (not among the sources).  Per §3 of the
specification: `id` absent until `create()` or `fetch_manifest`; lifecycle
state; the entries of the remote manifest the object currently points to
(`create()` yields a fresh empty manifest, `fetch_manifest` points at the
candidate whose entries the environment supplies, a successful `add_entry`
appends); the optional manifest-level batch; the shape parameters. -/
structure ManifestState where
  id : Option String := none
  state : MState := .stOpen
  entries : List Entry := []
  batch : Option Int := none
  format : String
  columns : Option (List String) := none
  compression : Option String := none
  delim : Option String := none
  fullscanned : Option Bool := none
  skiph : Option Nat := none
  deriving DecidableEq, Repr

/-- The remote calls performed against the ADE Notify API, in execution
order.  The in-memory `Manifest` constructor performs no remote call
(§3 of the specification: created in-memory, becomes persistent on
`create()`). -/
inductive Event where
  | searchOpen (system entity : String)
  | createManifest (id : String)
  | fetchManifest (id : String)
  | fetchEntries (id : String)
  | addEntry (path : String) (batch : Option Int) (ok : Bool)
  | addEntries (entries : List Entry)
  | notify (id : String)
  deriving DecidableEq, Repr

/-- The exceptions that can escape the modelled functions: a `KeyError` on
a missing mandatory configuration key (the specification's
`ConfigurationError`), or the fatal second failure of `add_entry`. -/
inductive NotifierError where
  | keyError (key : String)
  | addEntryFailed
  deriving DecidableEq, Repr

/-- Modelled from the spec: the behaviour of the remote ADE Notify API and
of the `Manifest` collaborator during one call — what the OPEN-manifest
search returns (raw, before the notifier sorts it), the entries of the open
candidate manifest, the fresh ids handed out by successive `create()`
calls, which `add_entry` attempts of the call fail (§6: `addEntry` fails if
the target manifest is no longer OPEN; the model lets the n-th attempt fail
for any reason), and the behaviour of Python `re.search` for the configured
pattern. -/
structure Env where
  openManifests : List ManifestSummary
  candidateEntries : List Entry
  freshIds : List String
  appendFails : Nat → Bool
  re_search : ReSearch

/-- Lines 156–176: the in-memory `Manifest` constructor with the mandatory
attributes, followed by the optional shape parameters copied from the data
source when configured (copying the `Option` mirrors set-only-if-present:
an absent key stays absent). -/
def manifest_init (source : Source) (fmt : String) : ManifestState :=
  { format := fmt, columns := source.manifest_parameters.columns,
    compression := source.manifest_parameters.compression,
    delim := source.manifest_parameters.delim,
    fullscanned := source.manifest_parameters.fullscanned,
    skiph := source.manifest_parameters.skiph }

/-- Lines 178–201 of `add_to_manifest`: the append-or-create decision.
Given the manifest object and the open-manifest ids, returns the remote
events performed, the manifest now targeted, and the index of the next
unused fresh id.  `open_manifest_ids[-1]` is the last element of the
sorted id list. -/
def manifest_decision (env : Env) (source : Source) (manifest0 : ManifestState)
    (open_ids : List String) : List Event × ManifestState × Nat :=
  if open_ids = [] then
    let id0 := env.freshIds.getD 0 ""
    ([.createManifest id0],
      { manifest0 with id := some id0, state := .stOpen, entries := [] }, 1)
  else
    let cid := open_ids.getLast?.getD ""
    match source.attributes.max_files_in_manifest with
    | some maxFiles =>
      let fetched := { manifest0 with
                       id := some cid, state := .stOpen,
                       entries := env.candidateEntries }
      if maxFiles ≤ env.candidateEntries.length then
        let id0 := env.freshIds.getD 0 ""
        ([.fetchManifest cid, .fetchEntries cid, .createManifest id0],
          { fetched with id := some id0, entries := [] }, 1)
      else
        ([.fetchManifest cid, .fetchEntries cid, .fetchManifest cid],
          fetched, 0)
    | none =>
      ([.fetchManifest cid],
        { manifest0 with
          id := some cid, state := .stOpen,
          entries := env.candidateEntries }, 0)

/-- Whether `p` is a prefix of the second list. -/
def isPrefixList : List Char → List Char → Bool
  | [], _ => true
  | _ :: _, [] => false
  | p :: ps, c :: cs => p = c && isPrefixList ps cs

/-- Replace every non-overlapping occurrence of `pat` (assumed non-empty)
by `rep`, scanning left to right, continuing after each replacement — the
semantics of Python `str.replace`.  The fuel only bounds the recursion
depth: every step consumes at least one character, so fuel = input length
replaces every occurrence. -/
def replaceFuelAux (pat rep : List Char) : Nat → List Char → List Char
  | _, [] => []
  | 0, l => l
  | fuel + 1, c :: cs =>
    if isPrefixList pat (c :: cs) then
      rep ++ replaceFuelAux pat rep fuel ((c :: cs).drop pat.length)
    else
      c :: replaceFuelAux pat rep fuel cs

/-- Model of Python `str.replace(pattern, replacement)` for a non-empty
pattern (the degenerate empty pattern, where Python inserts the
replacement between all characters, is left as the identity; no source
configuration in the claims uses it). -/
def py_replace (s pattern replacement : String) : String :=
  if pattern.toList = [] then s
  else
    String.mk (replaceFuelAux pattern.toList replacement.toList
      s.toList.length s.toList)

/-- Lines 203–213: apply the configured find/replace to the file url
(the rewrite runs only when both keys are configured). -/
def entry_path_of (source : Source) (file_url : String) : String :=
  match source.attributes.path_replace, source.attributes.path_replace_with with
  | some pr, some prw => py_replace file_url pr prw
  | _, _ => file_url

/-- Lines 215–226: parse the entry batch from the ORIGINAL file url when a
pattern is configured; a parse failure is caught and leaves the batch
absent (`None`). -/
def batch_of (env : Env) (source : Source) (file_url : String) : Option Int :=
  match source.attributes.batch_from_file_path_regex with
  | some regexp =>
    match parse_batch env.re_search file_url regexp with
    | .ok b => some b
    | .error _ => none
  | none => none

/-- Lines 228–238: append the entry to the targeted manifest; if that
fails for any reason, create a brand-new manifest and retry the append
once, a second failure propagating to the caller. -/
def append_with_recovery (env : Env) (manifest : ManifestState) (nextFresh : Nat)
    (path : String) (batch : Option Int) :
    List Event × Except NotifierError ManifestState :=
  if env.appendFails 0 then
    let idN := env.freshIds.getD nextFresh ""
    if env.appendFails 1 then
      ([.addEntry path batch false, .createManifest idN, .addEntry path batch false],
        .error .addEntryFailed)
    else
      ([.addEntry path batch false, .createManifest idN, .addEntry path batch true],
        .ok { manifest with
              id := some idN, state := .stOpen,
              entries := [⟨path, batch⟩] })
  else
    ([.addEntry path batch true],
      .ok { manifest with entries := manifest.entries ++ [⟨path, batch⟩] })

/-- Lines 242–248: notify the manifest when single-file mode is set. -/
def notify_if_single (single : Bool) (m : ManifestState) :
    List Event × ManifestState :=
  if single then
    ([.notify (m.id.getD "")], { m with state := .stNotified })
  else
    ([], m)

/-- `add_to_manifest` (lines 108–248).  A `KeyError` on a missing mandatory
key is raised exactly where Python raises it: the `search_manifests` call
arguments read the two identity fields before the remote call is made, and
the in-memory `Manifest` constructor reads the identity fields and then
`format` — so a missing identity field always errors before any remote
call, while a missing `format` errors only after the OPEN search when that
search runs. -/
def add_to_manifest (env : Env) (file_url : String) (source : Source) :
    List Event × Except NotifierError ManifestState :=
  -- lines 129–136: resolve single_file_manifest, default false
  let single := source.attributes.single_file_manifest.getD false
  match source.attributes.ade_source_system with
  | none => ([], .error (.keyError "ade_source_system"))
  | some sys =>
  match source.attributes.ade_source_entity with
  | none => ([], .error (.keyError "ade_source_entity"))
  | some ent =>
  -- lines 140–154: search OPEN manifests unless single-file mode
  let trace0 : List Event := if single then [] else [.searchOpen sys ent]
  let open_ids : List String :=
    if single then [] else (search_sort env.openManifests).map (fun m => m.id)
  -- lines 156–176: in-memory Manifest constructor and optional parameters
  match source.manifest_parameters.format with
  | none => (trace0, .error (.keyError "format"))
  | some fmt =>
  let step1 := manifest_decision env source (manifest_init source fmt) open_ids
  let path := entry_path_of source file_url
  let batch := batch_of env source file_url
  let step2 := append_with_recovery env step1.2.1 step1.2.2 path batch
  match step2.2 with
  | .error e => (trace0 ++ step1.1 ++ step2.1, .error e)
  | .ok m2 =>
    let step3 := notify_if_single single m2
    (trace0 ++ step1.1 ++ step2.1 ++ step3.1, .ok step3.2)

/-- An entry dictionary passed to `add_multiple_entries_to_manifest`: the
`sourceFile` value and the optional `batch` key (`none` = key absent). -/
structure EntryDict where
  sourceFile : String
  batch : Option Int := none
  deriving DecidableEq, Repr

/-- Lines 304–313: the path-rewrite loop, overwriting every entry's
`sourceFile` in the caller's list when both keys are configured. -/
def rewrite_entries (source : Source) (entries : List EntryDict) :
    List EntryDict :=
  match source.attributes.path_replace, source.attributes.path_replace_with with
  | some pr, some prw =>
    entries.map (fun e => { e with sourceFile := py_replace e.sourceFile pr prw })
  | _, _ => entries

/-- Lines 315–326: the per-entry batch loop, applied to the already
rewritten list.  The Python body reads `entry["sourceFile"]`, where `entry`
is the loop variable LEAKED from the path-rewrite loop (the batch loop's
own variable is `entry_batch`), so every iteration parses the batch from
the LAST rewritten entry's path; when the rewrite is not configured the
name `entry` is unbound and the first iteration raises `NameError`, caught
by the blanket `except`.  Because every iteration evaluates the same
expression, the loop either assigns that one batch to every entry or fails
on its first iteration leaving every entry unchanged. -/
def batch_entries (env : Env) (source : Source) (entries : List EntryDict) :
    List EntryDict :=
  match source.attributes.batch_from_file_path_regex with
  | none => entries
  | some regexp =>
    if entries = [] then entries
    else
      match
        (match source.attributes.path_replace,
               source.attributes.path_replace_with with
         | some _, some _ => entries.getLast?
         | _, _ => none) with
      | none => entries
      | some leaked =>
        match parse_batch env.re_search leaked.sourceFile regexp with
        | .ok b => entries.map (fun e => { e with batch := some b })
        | .error _ => entries

/-- `add_multiple_entries_to_manifest` (lines 251–336).  Always creates a
new manifest (no OPEN search), rewrites and batch-annotates the caller's
entry dictionaries in place (the in-place mutation is modelled by returning
the post-call entry list alongside the manifest), appends all entries in
one remote call preserving input order, then notifies the manifest.
Remote failures of the bulk append/notify are not modelled: the Python
code wraps neither in a handler, and no claim concerns them. -/
def add_multiple_entries_to_manifest (env : Env) (entries : List EntryDict)
    (source : Source) (batch : Option Int) :
    List Event × Except NotifierError (ManifestState × List EntryDict) :=
  match source.attributes.ade_source_system with
  | none => ([], .error (.keyError "ade_source_system"))
  | some _ =>
  match source.attributes.ade_source_entity with
  | none => ([], .error (.keyError "ade_source_entity"))
  | some _ =>
  match source.manifest_parameters.format with
  | none => ([], .error (.keyError "format"))
  | some fmt =>
  -- lines 275–298: in-memory constructor, optional parameters, manifest-level batch
  let manifest0 : ManifestState := { manifest_init source fmt with batch := batch }
  -- lines 300–302: always create a new manifest
  let id0 := env.freshIds.getD 0 ""
  let manifest1 := { manifest0 with
                     id := some id0, state := .stOpen,
                     entries := ([] : List Entry) }
  let entries1 := rewrite_entries source entries
  let entries2 := batch_entries env source entries1
  -- lines 330–334: one bulk append preserving order, then notify
  let sent := entries2.map (fun e => Entry.mk e.sourceFile e.batch)
  let manifest2 := { manifest1 with entries := sent, state := MState.stNotified }
  ([.createManifest id0, .addEntries sent, .notify id0],
    .ok (manifest2, entries2))

/-- The fetch-then-notify loop of `notify_manifests` (lines 389–394),
threading the SINGLE `Manifest` object through every iteration: each pass
points the object at the next id via `fetch_manifest` (which loads the
fetched state, OPEN since the id came from the OPEN search, and does not
populate `manifest_entries`), notifies it, and appends the same object to
the Python result list — counted here.  Returns the events, the object's
final state and how many aliases of it the list holds. -/
def notify_loop (m : ManifestState) : List String → List Event × ManifestState × Nat
  | [] => ([], m, 0)
  | id :: rest =>
    let notified := { m with id := some id, state := MState.stNotified }
    let step := notify_loop notified rest
    ([.fetchManifest id, .notify id] ++ step.1, step.2.1, step.2.2 + 1)

/-- `notify_manifests` (lines 339–396).  With no open manifests it logs a
warning and returns the empty list.  Otherwise the Python loop appends the
one `Manifest` object to `manifests` on every iteration, so the caller's
list holds n aliases of that object: the value observed by the caller is n
copies of the object's final state. -/
def notify_manifests (env : Env) (source : Source) :
    List Event × Except NotifierError (List ManifestState) :=
  match source.attributes.ade_source_system with
  | none => ([], .error (.keyError "ade_source_system"))
  | some sys =>
  match source.attributes.ade_source_entity with
  | none => ([], .error (.keyError "ade_source_entity"))
  | some ent =>
  -- lines 356–367: OPEN search (remote), then id collection
  let trace0 : List Event := [.searchOpen sys ent]
  let open_ids := (search_sort env.openManifests).map (fun m => m.id)
  -- lines 370–377: in-memory constructor, reads format after the search
  match source.manifest_parameters.format with
  | none => (trace0, .error (.keyError "format"))
  | some fmt =>
  let manifest0 : ManifestState := { format := fmt }
  if open_ids = [] then
    (trace0, .ok [])
  else
    let step := notify_loop manifest0 open_ids
    (trace0 ++ step.1, .ok (List.replicate step.2.2 step.2.1))

/-! ## Helper lemmas -/

/-- In a `Pairwise R` list with `R` reflexive, every element is related to
the element the list's `getLast?` returns. -/
theorem rel_getLast_of_pairwise {α : Type} {R : α → α → Prop}
    (hrefl : ∀ a, R a a) (l : List α) :
    ∀ (a x : α), l.Pairwise R → a ∈ l → l.getLast? = some x → R a x := by
  induction l with
  | nil => intro a x _ ha _; exact absurd ha (List.not_mem_nil a)
  | cons b t ih =>
    intro a x hp ha hx
    rcases List.pairwise_cons.mp hp with ⟨hb, ht⟩
    cases t with
    | nil =>
      simp only [List.getLast?_singleton, Option.some.injEq] at hx
      rcases List.mem_singleton.mp ha with rfl
      rw [← hx]
      exact hrefl a
    | cons c t2 =>
      rw [List.getLast?_cons_cons] at hx
      rcases List.mem_cons.mp ha with rfl | hat
      · exact hb x (List.mem_of_getLast?_eq_some hx)
      · exact ih a x ht hat hx

/-- The last element of the creation-time sort is one of the search
results and its `created` timestamp is maximal among them. -/
theorem search_sort_getLast_max (ms : List ManifestSummary) (h : ms ≠ []) :
    ∃ m : ManifestSummary, (search_sort ms).getLast? = some m ∧ m ∈ ms ∧
      ∀ m2 ∈ ms, m2.created ≤ m.created := by
  have hperm := List.perm_insertionSort created_le ms
  have hne : search_sort ms ≠ [] := by
    intro h0
    apply h
    have hlen := congrArg List.length h0
    simpa [search_sort, List.length_eq_zero, List.length_insertionSort]
      using hlen
  obtain ⟨x, hx⟩ := Option.isSome_iff_exists.mp (List.getLast?_isSome.mpr hne)
  refine ⟨x, hx, hperm.mem_iff.mp (List.mem_of_getLast?_eq_some hx), ?_⟩
  intro m2 hm2
  have hpw : (search_sort ms).Pairwise created_le :=
    List.sorted_insertionSort created_le ms
  exact rel_getLast_of_pairwise (R := created_le)
    (fun a => Nat.le_refl a.created) (search_sort ms) m2 x hpw
    (hperm.mem_iff.mpr hm2) hx

/-- When open manifests exist, the decision step of `add_to_manifest`
always fetches the last id of the sorted id list — the reuse candidate —
whatever the max-files configuration says. -/
theorem mem_decision_trace (env : Env) (source : Source) (m0 : ManifestState)
    (ids : List String) (h : ids ≠ []) :
    Event.fetchManifest (ids.getLast?.getD "") ∈
      (manifest_decision env source m0 ids).1 := by
  unfold manifest_decision
  simp only [if_neg h]
  cases source.attributes.max_files_in_manifest with
  | none => simp
  | some maxFiles =>
    by_cases hle : maxFiles ≤ env.candidateEntries.length <;> simp [hle]

/-! ## Concrete fixtures used by the witnesses -/

/-- A concrete well-formed source configuration. -/
def srcBase : Source :=
  { attributes := { ade_source_system := some "sys1",
                    ade_source_entity := some "ent1" },
    manifest_parameters := { format := some "CSV" } }

/-- A concrete remote environment with three open manifests (maximum
`created` in the middle of the raw search order), one candidate entry,
two fresh ids, no append failures, and the example-pattern regex oracle. -/
def envBase : Env :=
  { openManifests := [⟨"manA", 3⟩, ⟨"manB", 7⟩, ⟨"manC", 5⟩],
    candidateEntries := [⟨"e1", none⟩],
    freshIds := ["fresh1", "fresh2"],
    appendFails := fun _ => false,
    re_search := re_search_ymd }

/-! ## C7 — parse_batch -/

/-- C7: `parse_batch` is a deterministic function of its inputs that
applies the pattern once, concatenates the captured groups as strings left
to right and parses the concatenation in base 10: on the specification's
example pattern `(\d{4})(\d{2})(\d{2})` and a path containing `20230915`
it returns `20230915`; it fails (with the error the specification calls
`BatchParseError`) when the pattern does not match, when a captured group
has no match, and when the concatenation is not a valid base-10 integer. -/
theorem parse_batch_spec :
    (parse_batch re_search_ymd ".../20230915/file.csv"
        "(\\d{4})(\\d{2})(\\d{2})" = .ok 20230915) ∧
    (∀ (re : ReSearch) (url rx : String),
      parse_batch re url rx = parse_batch re url rx) ∧
    (∀ (re : ReSearch) (url rx : String), re rx url = none →
      parse_batch re url rx = .error .noMatch) ∧
    (∀ (re : ReSearch) (url rx : String) (gs : List (Option String)),
      re rx url = some gs → concatGroups gs = none →
      parse_batch re url rx = .error .groupNone) ∧
    (∀ (re : ReSearch) (url rx : String) (gs : List (Option String)) (s : String),
      re rx url = some gs → concatGroups gs = some s → str_to_int s = none →
      parse_batch re url rx = .error (.invalidInt s)) := by
  refine ⟨rfl, fun _ _ _ => rfl, ?_, ?_, ?_⟩
  · intro re url rx h; simp [parse_batch, h]
  · intro re url rx gs h hc; simp [parse_batch, h, hc]
  · intro re url rx gs s h hc hs; simp [parse_batch, h, hc, hs]

/-- Witness for C7: the three failure modes at concrete inputs. -/
theorem parse_batch_spec_witness :
    parse_batch (fun _ _ => none) "u" "p" = .error .noMatch ∧
    parse_batch (fun _ _ => some [none]) "u" "p" = .error .groupNone ∧
    parse_batch (fun _ _ => some [some "x"]) "u" "p" = .error (.invalidInt "x") :=
  ⟨parse_batch_spec.2.2.1 _ "u" "p" rfl,
   parse_batch_spec.2.2.2.1 _ "u" "p" [none] rfl rfl,
   parse_batch_spec.2.2.2.2 _ "u" "p" [some "x"] "x" rfl rfl rfl⟩

/-! ## C1 — candidate selection -/

/-- C1: with single-file mode off and a non-empty OPEN search result,
`add_to_manifest` targets as its reuse candidate the manifest with the
maximum `created` timestamp of the sequence: the search result is sorted
ascending by `created` and the last element is the one fetched. -/
theorem add_to_manifest_selects_max_created
    (env : Env) (file_url : String) (source : Source) (sys ent fmt : String)
    (hsys : source.attributes.ade_source_system = some sys)
    (hent : source.attributes.ade_source_entity = some ent)
    (hfmt : source.manifest_parameters.format = some fmt)
    (hsingle : source.attributes.single_file_manifest.getD false = false)
    (hopen : env.openManifests ≠ []) :
    ∃ m : ManifestSummary, m ∈ env.openManifests ∧
      (∀ m2 ∈ env.openManifests, m2.created ≤ m.created) ∧
      Event.fetchManifest m.id ∈ (add_to_manifest env file_url source).1 := by
  obtain ⟨m, hlast, hmem, hmax⟩ := search_sort_getLast_max env.openManifests hopen
  refine ⟨m, hmem, hmax, ?_⟩
  have hsne : search_sort env.openManifests ≠ [] := by
    intro h0; rw [h0] at hlast; exact Option.noConfusion hlast
  have hids : ((search_sort env.openManifests).map (fun s => s.id)).getLast?.getD ""
      = m.id := by
    rw [List.getLast?_map, hlast]; rfl
  have hne : (search_sort env.openManifests).map (fun s => s.id) ≠ [] := by
    simpa using hsne
  have hdec := mem_decision_trace env source (manifest_init source fmt)
    ((search_sort env.openManifests).map (fun s => s.id)) hne
  rw [hids] at hdec
  simp only [add_to_manifest, hsys, hent, hfmt, hsingle, Bool.false_eq_true,
    if_false]
  split <;> simp [List.mem_append, hdec]

/-- Witness for C1 at the concrete environment. -/
theorem add_to_manifest_selects_max_created_witness :
    ∃ m : ManifestSummary, m ∈ envBase.openManifests ∧
      (∀ m2 ∈ envBase.openManifests, m2.created ≤ m.created) ∧
      Event.fetchManifest m.id ∈ (add_to_manifest envBase "f.csv" srcBase).1 :=
  add_to_manifest_selects_max_created envBase "f.csv" srcBase "sys1" "ent1" "CSV"
    rfl rfl rfl rfl (by decide)

/-! ## C2 — max_files_in_manifest -/

/-- C2: when `max_files_in_manifest = N` is configured and an OPEN
candidate exists, `add_to_manifest` fetches the candidate's entries and:
with `N` or more entries it creates a new manifest (the returned manifest
carries the fresh id and a create call appears in the trace), while with
fewer than `N` entries it reuses the candidate (the returned manifest
carries the candidate's id and no create call is made). -/
theorem add_to_manifest_max_files_limit
    (env : Env) (file_url : String) (source : Source) (sys ent fmt : String)
    (maxFiles : Nat)
    (hsys : source.attributes.ade_source_system = some sys)
    (hent : source.attributes.ade_source_entity = some ent)
    (hfmt : source.manifest_parameters.format = some fmt)
    (hsingle : source.attributes.single_file_manifest.getD false = false)
    (hmax : source.attributes.max_files_in_manifest = some maxFiles)
    (hopen : env.openManifests ≠ [])
    (hok : env.appendFails 0 = false) :
    (maxFiles ≤ env.candidateEntries.length →
      ∃ m : ManifestState, (add_to_manifest env file_url source).2 = .ok m ∧
        m.id = some (env.freshIds.getD 0 "") ∧
        Event.createManifest (env.freshIds.getD 0 "") ∈
          (add_to_manifest env file_url source).1) ∧
    (env.candidateEntries.length < maxFiles →
      ∃ m : ManifestState, (add_to_manifest env file_url source).2 = .ok m ∧
        m.id = ((search_sort env.openManifests).map (fun s => s.id)).getLast? ∧
        ∀ i : String,
          Event.createManifest i ∉ (add_to_manifest env file_url source).1) := by
  have hne : (search_sort env.openManifests).map (fun s => s.id) ≠ [] := by
    intro h0
    apply hopen
    have hlen := congrArg List.length h0
    simpa [search_sort, List.length_eq_zero] using hlen
  obtain ⟨y, hy⟩ := Option.isSome_iff_exists.mp (List.getLast?_isSome.mpr hne)
  have hsne : search_sort env.openManifests ≠ [] := by
    intro h0; exact hne (by rw [h0]; rfl)
  constructor
  · intro hle
    simp [add_to_manifest, hsys, hent, hfmt, hsingle, manifest_decision,
      append_with_recovery, notify_if_single, hmax, hok, if_neg hne,
      if_neg hsne, hle]
  · intro hlt
    have hnle : ¬ maxFiles ≤ env.candidateEntries.length := Nat.not_le.mpr hlt
    simp [add_to_manifest, hsys, hent, hfmt, hsingle, manifest_decision,
      append_with_recovery, notify_if_single, hmax, hok, if_neg hne,
      if_neg hsne, hnle, hy]

/-- Witness for C2: with `max_files_in_manifest = 1` the one-entry
candidate is full, so a fresh manifest is created; with
`max_files_in_manifest = 2` the same candidate is reused. -/
theorem add_to_manifest_max_files_limit_witness :
    (1 ≤ envBase.candidateEntries.length →
      ∃ m : ManifestState,
        (add_to_manifest envBase "f.csv"
          { srcBase with attributes :=
              { srcBase.attributes with max_files_in_manifest := some 1 } }).2
            = .ok m ∧
        m.id = some (envBase.freshIds.getD 0 "") ∧
        Event.createManifest (envBase.freshIds.getD 0 "") ∈
          (add_to_manifest envBase "f.csv"
            { srcBase with attributes :=
                { srcBase.attributes with max_files_in_manifest := some 1 } }).1) ∧
    (envBase.candidateEntries.length < 2 →
      ∃ m : ManifestState,
        (add_to_manifest envBase "f.csv"
          { srcBase with attributes :=
              { srcBase.attributes with max_files_in_manifest := some 2 } }).2
            = .ok m ∧
        m.id = ((search_sort envBase.openManifests).map (fun s => s.id)).getLast? ∧
        ∀ i : String,
          Event.createManifest i ∉
            (add_to_manifest envBase "f.csv"
              { srcBase with attributes :=
                  { srcBase.attributes with max_files_in_manifest := some 2 } }).1) :=
  ⟨(add_to_manifest_max_files_limit envBase "f.csv"
      { srcBase with attributes :=
          { srcBase.attributes with max_files_in_manifest := some 1 } }
      "sys1" "ent1" "CSV" 1 rfl rfl rfl rfl rfl (by decide) rfl).1,
   (add_to_manifest_max_files_limit envBase "f.csv"
      { srcBase with attributes :=
          { srcBase.attributes with max_files_in_manifest := some 2 } }
      "sys1" "ent1" "CSV" 2 rfl rfl rfl rfl rfl (by decide) rfl).2⟩

/-! ## C3 — conflict recovery -/

/-- C3: when the first append to the targeted open candidate fails (no
max-files limit configured, single-file mode off), `add_to_manifest` does
not propagate that first failure: the remote trace is exactly one search,
one fetch of the candidate, the failed append, exactly one create of a
brand-new manifest and exactly one retried append, and the returned
manifest carries the fresh id — different from the candidate's id whenever
the fresh id is.  If the retried append also fails, the error propagates
to the caller. -/
theorem add_to_manifest_conflict_recovery
    (env : Env) (file_url : String) (source : Source) (sys ent fmt : String)
    (hsys : source.attributes.ade_source_system = some sys)
    (hent : source.attributes.ade_source_entity = some ent)
    (hfmt : source.manifest_parameters.format = some fmt)
    (hsingle : source.attributes.single_file_manifest.getD false = false)
    (hmaxn : source.attributes.max_files_in_manifest = none)
    (hopen : env.openManifests ≠ [])
    (hf0 : env.appendFails 0 = true) :
    (env.appendFails 1 = false →
      ∃ m : ManifestState,
        (add_to_manifest env file_url source).2 = .ok m ∧
        m.id = some (env.freshIds.getD 0 "") ∧
        (add_to_manifest env file_url source).1 =
          [Event.searchOpen sys ent,
           Event.fetchManifest
             (((search_sort env.openManifests).map (fun s => s.id)).getLast?.getD ""),
           Event.addEntry (entry_path_of source file_url)
             (batch_of env source file_url) false,
           Event.createManifest (env.freshIds.getD 0 ""),
           Event.addEntry (entry_path_of source file_url)
             (batch_of env source file_url) true] ∧
        (env.freshIds.getD 0 "" ≠
            ((search_sort env.openManifests).map (fun s => s.id)).getLast?.getD "" →
          m.id ≠
            some (((search_sort env.openManifests).map (fun s => s.id)).getLast?.getD ""))) ∧
    (env.appendFails 1 = true →
      (add_to_manifest env file_url source).2 = .error .addEntryFailed) := by
  have hne : (search_sort env.openManifests).map (fun s => s.id) ≠ [] := by
    intro h0
    apply hopen
    have hlen := congrArg List.length h0
    simpa [search_sort, List.length_eq_zero] using hlen
  have hsne : search_sort env.openManifests ≠ [] := by
    intro h0; exact hne (by rw [h0]; rfl)
  obtain ⟨y, hy⟩ := Option.isSome_iff_exists.mp (List.getLast?_isSome.mpr hne)
  constructor
  · intro hf1
    simp [add_to_manifest, hsys, hent, hfmt, hsingle, manifest_decision,
      append_with_recovery, notify_if_single, hmaxn, hf0, hf1, if_neg hne,
      if_neg hsne, hy]
  · intro hf1
    simp [add_to_manifest, hsys, hent, hfmt, hsingle, manifest_decision,
      append_with_recovery, notify_if_single, hmaxn, hf0, hf1, if_neg hne,
      if_neg hsne, hy]

/-- A remote environment whose first append attempt fails and whose retry
succeeds. -/
def envFail1 : Env := { envBase with appendFails := fun n => n == 0 }

/-- A remote environment where both append attempts fail. -/
def envFail2 : Env := { envBase with appendFails := fun _ => true }

/-- Witness for C3: the recovery trace at a concrete environment (first
append fails, retry succeeds — the sorted candidate is `manB`), and the
propagated error when both attempts fail. -/
theorem add_to_manifest_conflict_recovery_witness :
    (∃ m : ManifestState,
      (add_to_manifest envFail1 "f.csv" srcBase).2 = .ok m ∧
      m.id = some (envFail1.freshIds.getD 0 "") ∧
      (add_to_manifest envFail1 "f.csv" srcBase).1 =
        [Event.searchOpen "sys1" "ent1",
         Event.fetchManifest
           (((search_sort envFail1.openManifests).map (fun s => s.id)).getLast?.getD ""),
         Event.addEntry (entry_path_of srcBase "f.csv")
           (batch_of envFail1 srcBase "f.csv") false,
         Event.createManifest (envFail1.freshIds.getD 0 ""),
         Event.addEntry (entry_path_of srcBase "f.csv")
           (batch_of envFail1 srcBase "f.csv") true] ∧
      (envFail1.freshIds.getD 0 "" ≠
          ((search_sort envFail1.openManifests).map (fun s => s.id)).getLast?.getD "" →
        m.id ≠
          some (((search_sort envFail1.openManifests).map (fun s => s.id)).getLast?.getD ""))) ∧
    (add_to_manifest envFail2 "f.csv" srcBase).2 = .error .addEntryFailed :=
  ⟨(add_to_manifest_conflict_recovery envFail1 "f.csv" srcBase
      "sys1" "ent1" "CSV" rfl rfl rfl rfl rfl (by decide) rfl).1 rfl,
   (add_to_manifest_conflict_recovery envFail2 "f.csv" srcBase
      "sys1" "ent1" "CSV" rfl rfl rfl rfl rfl (by decide) rfl).2 rfl⟩

/-! ## C4 — single-file-manifest mode -/

/-- C4: with `single_file_manifest = true` and a successful append,
`add_to_manifest` performs no open-manifest search, always creates a fresh
manifest, appends the single entry and immediately notifies it: the remote
trace is exactly create, append, notify, and the returned manifest is
NOTIFIED and contains exactly one entry. -/
theorem add_to_manifest_single_file_mode
    (env : Env) (file_url : String) (source : Source) (sys ent fmt : String)
    (hsys : source.attributes.ade_source_system = some sys)
    (hent : source.attributes.ade_source_entity = some ent)
    (hfmt : source.manifest_parameters.format = some fmt)
    (hsingle : source.attributes.single_file_manifest = some true)
    (hok : env.appendFails 0 = false) :
    (∀ s e : String,
      Event.searchOpen s e ∉ (add_to_manifest env file_url source).1) ∧
    (add_to_manifest env file_url source).1 =
      [Event.createManifest (env.freshIds.getD 0 ""),
       Event.addEntry (entry_path_of source file_url)
         (batch_of env source file_url) true,
       Event.notify (env.freshIds.getD 0 "")] ∧
    ∃ m : ManifestState,
      (add_to_manifest env file_url source).2 = .ok m ∧
      m.state = .stNotified ∧
      m.entries = [⟨entry_path_of source file_url, batch_of env source file_url⟩] ∧
      m.id = some (env.freshIds.getD 0 "") := by
  refine ⟨?_, ?_, ?_⟩ <;>
    simp [add_to_manifest, hsys, hent, hfmt, hsingle, manifest_decision,
      append_with_recovery, notify_if_single, hok]

/-- The base source configuration with single-file mode switched on. -/
def srcSingle : Source :=
  { srcBase with attributes :=
      { srcBase.attributes with single_file_manifest := some true } }

/-- Witness for C4 at the concrete environment: no search, exact
create/append/notify trace, returned manifest NOTIFIED with one entry. -/
theorem add_to_manifest_single_file_mode_witness :
    (∀ s e : String,
      Event.searchOpen s e ∉ (add_to_manifest envBase "f.csv" srcSingle).1) ∧
    (add_to_manifest envBase "f.csv" srcSingle).1 =
      [Event.createManifest "fresh1", Event.addEntry "f.csv" none true,
       Event.notify "fresh1"] ∧
    ∃ m : ManifestState,
      (add_to_manifest envBase "f.csv" srcSingle).2 = .ok m ∧
      m.state = .stNotified ∧
      m.entries = [⟨"f.csv", none⟩] ∧
      m.id = some "fresh1" :=
  add_to_manifest_single_file_mode envBase "f.csv" srcSingle
    "sys1" "ent1" "CSV" rfl rfl rfl rfl rfl

/-! ## C8 — entry batch comes from the original url -/

/-- A successful first append: the recovery wrapper performs exactly one
append and returns the manifest with the entry appended. -/
theorem append_with_recovery_ok (env : Env) (M : ManifestState) (k : Nat)
    (p : String) (b : Option Int) (hok : env.appendFails 0 = false) :
    append_with_recovery env M k p b =
      ([Event.addEntry p b true],
        .ok { M with entries := M.entries ++ [⟨p, b⟩] }) := by
  simp [append_with_recovery, hok]

/-- C8: with `batch_from_file_path_regex` configured, `add_to_manifest`
extracts the batch from the ORIGINAL pre-rewrite `file_url`: a parse
failure is non-fatal — the function still returns a manifest and the entry
is appended with the rewritten path and an absent batch — while a parse
success on the original url attaches exactly that value to the appended
entry. -/
theorem add_to_manifest_batch_from_original_url
    (env : Env) (file_url : String) (source : Source) (sys ent fmt rx : String)
    (hsys : source.attributes.ade_source_system = some sys)
    (hent : source.attributes.ade_source_entity = some ent)
    (hfmt : source.manifest_parameters.format = some fmt)
    (hrx : source.attributes.batch_from_file_path_regex = some rx)
    (hok : env.appendFails 0 = false) :
    (∀ e : BatchParseError, parse_batch env.re_search file_url rx = .error e →
      (∃ m : ManifestState, (add_to_manifest env file_url source).2 = .ok m) ∧
      Event.addEntry (entry_path_of source file_url) none true
        ∈ (add_to_manifest env file_url source).1) ∧
    (∀ b : Int, parse_batch env.re_search file_url rx = .ok b →
      Event.addEntry (entry_path_of source file_url) (some b) true
        ∈ (add_to_manifest env file_url source).1) := by
  constructor
  · intro e he
    have hbatch : batch_of env source file_url = none := by
      simp [batch_of, hrx, he]
    constructor <;>
      simp [add_to_manifest, hsys, hent, hfmt, hbatch,
        append_with_recovery_ok env _ _ _ _ hok]
  · intro b hb
    have hbatch : batch_of env source file_url = some b := by
      simp [batch_of, hrx, hb]
    simp [add_to_manifest, hsys, hent, hfmt, hbatch,
      append_with_recovery_ok env _ _ _ _ hok]

/-- A source whose path rewrite erases the date that the batch pattern
captures: if the batch were parsed from the rewritten path, parsing would
fail; parsed from the original url it yields 20230915. -/
def srcRx : Source :=
  { attributes :=
      { ade_source_system := some "sys1"
        ade_source_entity := some "ent1"
        path_replace := some "20230915"
        path_replace_with := some "X"
        batch_from_file_path_regex := some "(\\d{4})(\\d{2})(\\d{2})" }
    manifest_parameters := { format := some "CSV" } }

/-- Witness for C8: at a concrete input whose rewrite erases the date, the
appended entry carries the rewritten path `a/X/b.csv` together with the
batch 20230915 parsed from the original url. -/
theorem add_to_manifest_batch_from_original_url_witness :
    Event.addEntry (entry_path_of srcRx "a/20230915/b.csv") (some 20230915) true
      ∈ (add_to_manifest envBase "a/20230915/b.csv" srcRx).1 ∧
    entry_path_of srcRx "a/20230915/b.csv" = "a/X/b.csv" :=
  ⟨(add_to_manifest_batch_from_original_url envBase "a/20230915/b.csv" srcRx
      "sys1" "ent1" "CSV" "(\\d{4})(\\d{2})(\\d{2})" rfl rfl rfl rfl rfl).2
      20230915 rfl,
   rfl⟩

/-! ## C9 — configuration errors and remote calls -/

/-- A source configuration with both identity fields but no
`manifest_parameters.format`. -/
def srcNoFmt : Source :=
  { attributes :=
      { ade_source_system := some "sys1"
        ade_source_entity := some "ent1" }
    manifest_parameters := {} }

/-- Counterexample to C9: with the identity fields present but `format`
missing, both `add_to_manifest` (non-single-file mode) and
`notify_manifests` perform the OPEN-search remote call first and only then
raise the configuration `KeyError` — the error is not raised before any
remote call. -/
theorem config_error_not_before_remote_counterexample :
    (add_to_manifest envBase "f.csv" srcNoFmt).2 = .error (.keyError "format") ∧
    (add_to_manifest envBase "f.csv" srcNoFmt).1 =
      [Event.searchOpen "sys1" "ent1"] ∧
    (notify_manifests envBase srcNoFmt).2 = .error (.keyError "format") ∧
    (notify_manifests envBase srcNoFmt).1 = [Event.searchOpen "sys1" "ent1"] :=
  ⟨rfl, rfl, rfl, rfl⟩

/-- C9 as amended: a missing identity field makes `add_to_manifest` and
`notify_manifests` raise the configuration `KeyError` before any remote
call; a missing `format` also raises a fatal `KeyError` before any
manifest-mutating call, but in single-file-mode `add_to_manifest` it comes
before any remote call, while in non-single-file `add_to_manifest` and in
`notify_manifests` the OPEN-manifest search has already been performed
when it is raised. -/
theorem config_error_timing_amended
    (env : Env) (u : String) (source : Source) :
    (source.attributes.ade_source_system = none →
      add_to_manifest env u source = ([], .error (.keyError "ade_source_system")) ∧
      notify_manifests env source = ([], .error (.keyError "ade_source_system"))) ∧
    (source.attributes.ade_source_entity = none →
      ∀ sys : String, source.attributes.ade_source_system = some sys →
        add_to_manifest env u source = ([], .error (.keyError "ade_source_entity")) ∧
        notify_manifests env source = ([], .error (.keyError "ade_source_entity"))) ∧
    (source.manifest_parameters.format = none →
      ∀ sys ent : String, source.attributes.ade_source_system = some sys →
        source.attributes.ade_source_entity = some ent →
        (source.attributes.single_file_manifest.getD false = true →
          add_to_manifest env u source = ([], .error (.keyError "format"))) ∧
        (source.attributes.single_file_manifest.getD false = false →
          add_to_manifest env u source =
            ([Event.searchOpen sys ent], .error (.keyError "format"))) ∧
        notify_manifests env source =
          ([Event.searchOpen sys ent], .error (.keyError "format"))) := by
  refine ⟨fun h => ⟨?_, ?_⟩, fun h sys hs => ⟨?_, ?_⟩,
    fun h sys ent hs he => ⟨fun hb => ?_, fun hb => ?_, ?_⟩⟩ <;>
    simp [add_to_manifest, notify_manifests, *]

/-- A source configuration missing `ade_source_system`. -/
def srcNoSys : Source :=
  { attributes := {}, manifest_parameters := { format := some "CSV" } }

/-- A source configuration missing `ade_source_entity`. -/
def srcNoEnt : Source :=
  { attributes := { ade_source_system := some "sys1" }
    manifest_parameters := { format := some "CSV" } }

/-- The format-less source with single-file mode switched on. -/
def srcNoFmtSingle : Source :=
  { srcNoFmt with attributes :=
      { srcNoFmt.attributes with single_file_manifest := some true } }

/-- Witness for the amended C9: each timing at a concrete configuration. -/
theorem config_error_timing_amended_witness :
    add_to_manifest envBase "f.csv" srcNoSys
      = ([], .error (.keyError "ade_source_system")) ∧
    notify_manifests envBase srcNoEnt
      = ([], .error (.keyError "ade_source_entity")) ∧
    add_to_manifest envBase "f.csv" srcNoFmtSingle
      = ([], .error (.keyError "format")) ∧
    add_to_manifest envBase "f.csv" srcNoFmt
      = ([Event.searchOpen "sys1" "ent1"], .error (.keyError "format")) :=
  ⟨((config_error_timing_amended envBase "f.csv" srcNoSys).1 rfl).1,
   ((config_error_timing_amended envBase "f.csv" srcNoEnt).2.1 rfl "sys1" rfl).2,
   ((config_error_timing_amended envBase "f.csv" srcNoFmtSingle).2.2 rfl
      "sys1" "ent1" rfl rfl).1 rfl,
   ((config_error_timing_amended envBase "f.csv" srcNoFmt).2.2 rfl
      "sys1" "ent1" rfl rfl).2.1 rfl⟩

/-! ## C5 — bulk per-entry batch extraction -/

/-- A bulk source with rewrite and batch pattern configured. -/
def srcBulk : Source :=
  { attributes :=
      { ade_source_system := some "sys1"
        ade_source_entity := some "ent1"
        path_replace := some "raw"
        path_replace_with := some "landing"
        batch_from_file_path_regex := some "(\\d{4})(\\d{2})(\\d{2})" }
    manifest_parameters := { format := some "CSV" } }

/-- `srcBulk` without the path rewrite: the batch loop's leaked variable
`entry` is then unbound (`NameError` on the first iteration). -/
def srcBulkNoRw : Source :=
  { srcBulk with attributes :=
      { srcBulk.attributes with
        path_replace := none
        path_replace_with := none } }

/-- Two bulk entries whose paths carry different dates. -/
def entriesBulk : List EntryDict :=
  [⟨"s3://b/raw/20230101/a.csv", none⟩, ⟨"s3://b/raw/20230915/b.csv", none⟩]

/-- C5 at the failing input: with the rewrite and the batch pattern
configured and two entries whose paths carry the dates 20230101 and
20230915, the bulk path assigns BOTH entries the batch 20230915 parsed
from the LAST entry's path (the loop reads the leaked variable `entry`,
not its own `entry_batch`), so the first entry does not receive the batch
20230101 from its own path; and with the rewrite not configured the same
call assigns no per-entry batch at all (the unbound `entry` raises
`NameError`, silently caught). -/
theorem bulk_batch_from_last_entry_bug :
    ((add_multiple_entries_to_manifest envBase entriesBulk srcBulk none).2.map
        (fun r => r.2.map (fun e => e.batch)))
      = .ok [some 20230915, some 20230915] ∧
    some (20230915 : Int) ≠ some (20230101 : Int) ∧
    ((add_multiple_entries_to_manifest envBase entriesBulk srcBulkNoRw none).2.map
        (fun r => r.2.map (fun e => e.batch)))
      = .ok [none, none] :=
  ⟨rfl, by decide, rfl⟩

/-! ## C6 — notify_manifests -/

/-- Two OPEN manifests, ids `A` and `B`, `B` created later. -/
def envC6 : Env :=
  { openManifests := [⟨"A", 1⟩, ⟨"B", 2⟩], candidateEntries := [],
    freshIds := [], appendFails := fun _ => false, re_search := re_search_ymd }

/-- The same remote environment with no open manifests. -/
def envC6empty : Env := { envC6 with openManifests := [] }

/-- C6 at the failing input: with zero OPEN manifests `notify_manifests`
returns the empty list without error (that part of the claim holds); with
the two OPEN manifests `A` and `B` it fetches and notifies both ids in
search order, but the Python loop appends the SAME `Manifest` object on
every iteration, so both returned elements alias the final state: both
carry the LAST id `B` (and state NOTIFIED) — the first returned element
does not carry id `A` as the claim requires. -/
theorem notify_manifests_aliasing_bug :
    (notify_manifests envC6empty srcBase).2 = .ok [] ∧
    (notify_manifests envC6 srcBase).1 =
      [Event.searchOpen "sys1" "ent1", Event.fetchManifest "A",
       Event.notify "A", Event.fetchManifest "B", Event.notify "B"] ∧
    ((notify_manifests envC6 srcBase).2.map (fun l => l.map (fun m => m.id)))
      = .ok [some "B", some "B"] ∧
    some "B" ≠ some "A" ∧
    ((notify_manifests envC6 srcBase).2.map (fun l => l.map (fun m => m.state)))
      = .ok [.stNotified, .stNotified] :=
  ⟨rfl, rfl, rfl, by decide, rfl⟩

/-! ## C10 — the bulk path mutates the caller's entries -/

/-- The batch loop only ever writes the `batch` key: the `sourceFile`
values of the entry list are untouched by it. -/
theorem batch_entries_sourceFiles (env : Env) (source : Source)
    (l : List EntryDict) :
    (batch_entries env source l).map (fun e => e.sourceFile)
      = l.map (fun e => e.sourceFile) := by
  unfold batch_entries
  split
  · rfl
  · split
    · rfl
    · split
      · rfl
      · split
        · simp
        · rfl

/-- C10: the bulk path mutates the caller's entry dictionaries in place
(represented by the post-call entry list the model returns alongside the
manifest): with the rewrite configured, after the call every entry's
`sourceFile` holds the rewritten path, and whenever the per-entry batch
loop succeeds (parsing the leaked last entry's path), every entry of the
caller's list additionally carries the written `batch` key. -/
theorem add_multiple_entries_mutates_caller
    (env : Env) (entries : List EntryDict) (source : Source)
    (b : Option Int) (sys ent fmt pr prw : String)
    (hsys : source.attributes.ade_source_system = some sys)
    (hent : source.attributes.ade_source_entity = some ent)
    (hfmt : source.manifest_parameters.format = some fmt)
    (hpr : source.attributes.path_replace = some pr)
    (hprw : source.attributes.path_replace_with = some prw) :
    ∃ (m : ManifestState) (post : List EntryDict),
      (add_multiple_entries_to_manifest env entries source b).2 = .ok (m, post) ∧
      post.map (fun e => e.sourceFile)
        = entries.map (fun e => py_replace e.sourceFile pr prw) ∧
      (∀ (rx : String) (bv : Int),
        source.attributes.batch_from_file_path_regex = some rx →
        parse_batch env.re_search
            (((rewrite_entries source entries).getLast?).getD ⟨"", none⟩).sourceFile
            rx = .ok bv →
        post.map (fun e => e.batch) = entries.map (fun _ => some bv)) := by
  simp only [add_multiple_entries_to_manifest, hsys, hent, hfmt]
  refine ⟨_, _, rfl, ?_, ?_⟩
  · rw [batch_entries_sourceFiles]
    simp [rewrite_entries, hpr, hprw]
  · intro rx bv hrx hparse
    by_cases h0 : rewrite_entries source entries = []
    · have h0e : entries = [] := by
        simpa [rewrite_entries, hpr, hprw] using h0
      subst h0e
      simp [batch_entries, rewrite_entries, hrx, hpr, hprw]
    · obtain ⟨lk, hlk⟩ :=
        Option.isSome_iff_exists.mp (List.getLast?_isSome.mpr h0)
      rw [hlk] at hparse
      simp only [Option.getD_some] at hparse
      simp only [batch_entries, hrx, if_neg h0, hpr, hprw, hlk, hparse]
      simp only [rewrite_entries, hpr, hprw, List.map_map, Function.comp_def]

/-- Witness for C10 at the concrete bulk fixtures. -/
theorem add_multiple_entries_mutates_caller_witness :
    ∃ (m : ManifestState) (post : List EntryDict),
      (add_multiple_entries_to_manifest envBase entriesBulk srcBulk none).2
        = .ok (m, post) ∧
      post.map (fun e => e.sourceFile)
        = entriesBulk.map (fun e => py_replace e.sourceFile "raw" "landing") ∧
      (∀ (rx : String) (bv : Int),
        srcBulk.attributes.batch_from_file_path_regex = some rx →
        parse_batch envBase.re_search
            (((rewrite_entries srcBulk entriesBulk).getLast?).getD ⟨"", none⟩).sourceFile
            rx = .ok bv →
        post.map (fun e => e.batch) = entriesBulk.map (fun _ => some bv)) :=
  add_multiple_entries_mutates_caller envBase entriesBulk srcBulk none
    "sys1" "ent1" "CSV" "raw" "landing" rfl rfl rfl rfl rfl

end AdeNotifier
